import Mathlib

/-!
Verification of the URL-fetch fallback core of the HTMLGrab page reader
(`src/components/PageReader.tsx`): the URL validator `isValidUrl`, the
sequential CORS-proxy fallback loop of `fetchPageContent`, and the HTML
download/export transform `downloadHtml`.

The component's network layer (`fetch`) is modelled as an oracle mapping a
request URL to either a transport fault or a completed HTTP response, and
the loop is embedded as a pure recursion that also records the trace of
requests it issues. The browser's `URL` constructor, a platform builtin,
is modelled by `parseURL` below (WHATWG URL parsing restricted to the
behavior the validator depends on: scheme recognition and normalization,
and the host requirement of special schemes).
-/

namespace HTMLGrab

/-! ## Basic string helpers -/

/-- Does `pat` occur at the start of `s` (on character lists)? -/
def startsWithChars : List Char → List Char → Bool
  | [], _ => true
  | _ :: _, [] => false
  | p :: ps, c :: cs => p == c && startsWithChars ps cs

/-- Does `pat` occur anywhere inside `s` (on character lists)? -/
def hasSubstrChars (pat : List Char) : List Char → Bool
  | [] => startsWithChars pat []
  | c :: cs => startsWithChars pat (c :: cs) || hasSubstrChars pat cs

/-- Substring test on strings, used to state facts about error messages. -/
def containsStr (s pat : String) : Bool :=
  hasSubstrChars pat.data s.data

/-! ## `encodeURIComponent`

The ECMAScript `encodeURIComponent` builtin used at line 50 of
`PageReader.tsx`: characters in the unescaped set
(ASCII alphanumerics and `- _ . ! ~ * ' ( )`) pass through, every other
character is UTF-8 encoded and each byte written as `%XX` with uppercase
hexadecimal digits. -/

/-- Characters `encodeURIComponent` leaves unescaped: ASCII alphanumerics
and the marks `- _ . ! ~ * ' ( )` (given here by code point). -/
def isUnescapedChar (c : Char) : Bool :=
  (65 ≤ c.toNat && c.toNat ≤ 90) || (97 ≤ c.toNat && c.toNat ≤ 122) ||
  (48 ≤ c.toNat && c.toNat ≤ 57) ||
  [45, 95, 46, 33, 126, 42, 39, 40, 41].contains c.toNat

/-- UTF-8 encoding of a single code point, as byte values. -/
def utf8EncodeChar (c : Char) : List Nat :=
  let n := c.toNat
  if n < 0x80 then [n]
  else if n < 0x800 then
    [0xC0 + n / 64, 0x80 + n % 64]
  else if n < 0x10000 then
    [0xE0 + n / 4096, 0x80 + (n / 64) % 64, 0x80 + n % 64]
  else
    [0xF0 + n / 262144, 0x80 + (n / 4096) % 64, 0x80 + (n / 64) % 64,
     0x80 + n % 64]

/-- UTF-8 encoding of a whole string, as byte values. -/
def utf8Bytes (s : String) : List Nat :=
  (s.data.map utf8EncodeChar).flatten

/-- Uppercase hexadecimal digit for a value below 16. -/
def hexDigitChar (n : Nat) : Char :=
  if n < 10 then Char.ofNat (48 + n) else Char.ofNat (55 + n)

/-- `%XX` escape of one byte, uppercase hex. -/
def percentByte (b : Nat) : String :=
  String.mk ['%', hexDigitChar (b / 16), hexDigitChar (b % 16)]

/-- The ECMAScript `encodeURIComponent` builtin. -/
def encodeURIComponent (s : String) : String :=
  String.join (s.data.map fun c =>
    if isUnescapedChar c then String.mk [c]
    else String.join ((utf8EncodeChar c).map percentByte))

/-! ## The WHATWG `URL` constructor (platform builtin), modelled

`isValidUrl` calls `new URL(string)` and reads `.protocol`. `parseURL`
models that constructor to the depth the validator observes:

* input is stripped of leading/trailing C0 controls and spaces, and of
  tabs and newlines anywhere;
* an absolute URL must start with a scheme `[a-zA-Z][a-zA-Z0-9+-.]*`
  followed by `:`; the parsed scheme is normalized to lowercase and
  `.protocol` is the scheme with a trailing colon;
* the special schemes `http https ws wss ftp` require a nonempty host
  free of forbidden host code points and with a numeric (possibly empty)
  port; `file` and non-special schemes do not require a host.

IPv6 hosts, IDNA mapping and percent-decoding of the host are outside
this model; no claim depends on them. -/

/-- One parsed-URL observation: the normalized `protocol` component. -/
structure URLRecord where
  protocol : String
  deriving DecidableEq, Repr

/-- ASCII letter test. -/
def isAsciiAlpha (c : Char) : Bool :=
  (65 ≤ c.toNat && c.toNat ≤ 90) || (97 ≤ c.toNat && c.toNat ≤ 122)

/-- Character allowed after the first character of a scheme:
letters, digits, `+`, `-`, `.`. -/
def isSchemeTailChar (c : Char) : Bool :=
  isAsciiAlpha c || (48 ≤ c.toNat && c.toNat ≤ 57) ||
  [43, 45, 46].contains c.toNat

/-- Scan the tail of a scheme up to the terminating colon, lowercasing;
returns the scheme's characters (reversed accumulator) and the rest. -/
def scanScheme (acc : List Char) : List Char → Option (String × List Char)
  | [] => none
  | c :: rest =>
    if c == ':' then some (String.mk acc.reverse, rest)
    else if isSchemeTailChar c then scanScheme (c.toLower :: acc) rest
    else none

/-- Split off `scheme ":"` from the front of the input, normalized to
lowercase; `none` when the input has no recognizable scheme. -/
def splitScheme : List Char → Option (String × List Char)
  | [] => none
  | c :: rest =>
    if isAsciiAlpha c then scanScheme [c.toLower] rest else none

/-- WHATWG input preprocessing: remove tab/LF/CR everywhere, strip
leading and trailing C0 controls and spaces. -/
def urlPreprocess (s : String) : List Char :=
  let noTabsNewlines := s.data.filter fun c => !([9, 10, 13].contains c.toNat)
  ((noTabsNewlines.dropWhile fun c => c.toNat ≤ 32).reverse.dropWhile
    fun c => c.toNat ≤ 32).reverse

/-- Schemes that are special and require a nonempty host. -/
def specialHostSchemes : List String := ["http", "https", "ws", "wss", "ftp"]

/-- Code points forbidden inside a host. -/
def isForbiddenHostChar (c : Char) : Bool :=
  [0, 32, 35, 37, 47, 58, 60, 62, 63, 64, 91, 92, 93, 94, 124].contains
    c.toNat

/-- The authority's host-and-port section: skip the special-scheme
slashes, stop at a path/query/fragment delimiter, drop userinfo. -/
def hostPortOf (rest : List Char) : List Char :=
  let afterSlashes := rest.dropWhile fun c => c == '/' || c == '\\'
  let authority := afterSlashes.takeWhile fun c =>
    !(c == '/' || c == '\\' || c == '?' || c == '#')
  (authority.reverse.takeWhile fun c => !(c == '@')).reverse

/-- Host part of the authority (before any port colon). -/
def hostOf (rest : List Char) : List Char :=
  (hostPortOf rest).takeWhile fun c => !(c == ':')

/-- Port digits of the authority (after the port colon), if present. -/
def portOf (rest : List Char) : Option (List Char) :=
  let hp := hostPortOf rest
  if hp.contains ':' then some ((hp.dropWhile fun c => !(c == ':')).drop 1)
  else none

/-- Is the authority of a special-scheme URL well formed: nonempty host,
no forbidden host code point, numeric (possibly empty) port? -/
def validSpecialAuthority (rest : List Char) : Bool :=
  let h := hostOf rest
  !h.isEmpty && h.all (fun c => !isForbiddenHostChar c) &&
    (match portOf rest with
     | none => true
     | some p => p.all fun c => 48 ≤ c.toNat && c.toNat ≤ 57)

/-- Model of the `new URL(string)` platform builtin (see the section
comment): `none` models the constructor throwing. -/
def parseURL (s : String) : Option URLRecord :=
  match splitScheme (urlPreprocess s) with
  | none => none
  | some (scheme, rest) =>
    if specialHostSchemes.contains scheme then
      if validSpecialAuthority rest then some ⟨scheme ++ ":"⟩ else none
    else some ⟨scheme ++ ":"⟩

/-! ## `isValidUrl` (PageReader.tsx lines 19–26) -/

/-- `isValidUrl`: parse the string as a URL and accept exactly the
`http:` and `https:` protocols; a parse failure yields `false`. -/
def isValidUrl (s : String) : Bool :=
  match parseURL s with
  | some u => u.protocol == "http:" || u.protocol == "https:"
  | none => false

/-! ## The proxy fallback loop (PageReader.tsx lines 43–79)

The `fetch` transport is an oracle from the request URL to either a
transport fault (modelling a rejected promise) or a completed response.
`runProxyLoop` is the `for (const proxy of corsProxies)` loop verbatim:
it keeps the mutable `response` and `lastError` variables as explicit
state and records every request it issues. -/

/-- A completed HTTP response as the loop observes it. -/
structure Response where
  status : Nat
  body : String
  deriving DecidableEq, Repr

/-- The `Response.ok` accessor of the Fetch API: status in 200–299. -/
def Response.ok (r : Response) : Bool :=
  200 ≤ r.status && r.status ≤ 299

/-- What one `fetch` call does: reject with a transport fault, or
complete with a response. -/
inductive NetResult where
  | fault (msg : String)
  | resp (status : Nat) (body : String)
  deriving DecidableEq, Repr

/-- An issued HTTP request, as built at lines 50–56. -/
structure Request where
  method : String
  url : String
  userAgent : String
  auth : Option String
  deriving DecidableEq, Repr

/-- The fixed identifying header value sent with every proxy request. -/
def pageReaderUserAgent : String :=
  "Mozilla/5.0 (Windows NT 10.0; Win64; x64) AppleWebKit/537.36"

/-- Request URL for one proxy: `proxy + encodeURIComponent(url)`. -/
def requestUrl (target proxy : String) : String :=
  proxy ++ encodeURIComponent target

/-- The GET request issued against one proxy: fixed user-agent header,
no authentication. -/
def mkRequest (target proxy : String) : Request :=
  { method := "GET", url := requestUrl target proxy,
    userAgent := pageReaderUserAgent, auth := none }

/-- The loop's mutable variables `response` and `lastError`. -/
structure LoopState where
  response : Option Response
  lastError : Option String
  deriving DecidableEq, Repr

/-- The `for (const proxy of corsProxies)` loop: on a fault record it in
`lastError` and continue; on a completed response store it in `response`
and break when it is ok, else continue. Also returns the list of
requests issued. -/
def runProxyLoop (net : String → NetResult) (target : String) :
    List String → LoopState → LoopState × List Request
  | [], ls => (ls, [])
  | proxy :: rest, ls =>
    let req := mkRequest target proxy
    match net req.url with
    | NetResult.fault m =>
      let r := runProxyLoop net target rest { ls with lastError := some m }
      (r.1, req :: r.2)
    | NetResult.resp st body =>
      if Response.ok ⟨st, body⟩ then
        ({ ls with response := some ⟨st, body⟩ }, [req])
      else
        let r := runProxyLoop net target rest
          { ls with response := some ⟨st, body⟩ }
        (r.1, req :: r.2)

/-- The outcome surfaced by the fetch procedure. -/
inductive FetchOutcome where
  | success (html : String) (sourceUrl : String)
  | failure (reason : String)
  deriving DecidableEq, Repr

/-- `${response?.status || 'Network error'}`: the status of the last
completed response rendered in decimal, or `Network error` when no
response was observed (or its status is the falsy 0). -/
def statusOrNetworkError : Option Response → String
  | none => "Network error"
  | some r => if r.status = 0 then "Network error" else toString r.status

/-- Message of the error thrown at line 68. -/
def failedFetchMsg (r : Option Response) : String :=
  "Failed to fetch: " ++ statusOrNetworkError r

/-- The fixed text of the error banner composed at line 76. -/
def bannerPrefixText : String :=
  "Failed to fetch page content. This might be due to CORS restrictions or the page being unavailable. Error: "

/-- The error banner composed by the catch block at line 76 around a
thrown error's message. -/
def fetchErrorBanner (m : String) : String :=
  bannerPrefixText ++ m

/-- §4.2 `fetchViaProxies`: run the fallback loop, then either read the
body of the ok response as the successful HTML (with the target URL as
source), or fail with the composed banner. Also returns the trace of
requests issued. -/
def fetchViaProxies (net : String → NetResult) (targetUrl : String)
    (proxies : List String) : FetchOutcome × List Request :=
  let r := runProxyLoop net targetUrl proxies ⟨none, none⟩
  match r.1.response with
  | none => (FetchOutcome.failure (fetchErrorBanner (failedFetchMsg none)), r.2)
  | some resp =>
    if Response.ok resp then (FetchOutcome.success resp.body targetUrl, r.2)
    else
      (FetchOutcome.failure (fetchErrorBanner (failedFetchMsg (some resp))),
       r.2)

/-! ## The stateful component operations -/

/-- Characters the ECMAScript `String.prototype.trim` builtin strips:
WhiteSpace and LineTerminator code points. -/
def isJsWhitespace (c : Char) : Bool :=
  [9, 10, 11, 12, 13, 32, 0xA0, 0x1680, 0x2000, 0x2001, 0x2002, 0x2003,
   0x2004, 0x2005, 0x2006, 0x2007, 0x2008, 0x2009, 0x200A, 0x2028, 0x2029,
   0x202F, 0x205F, 0x3000, 0xFEFF].contains c.toNat

/-- The `url.trim()` call of line 29: strip leading and trailing
JavaScript whitespace. -/
def jsTrim (s : String) : String :=
  String.mk (((s.data.dropWhile isJsWhitespace).reverse.dropWhile
    isJsWhitespace).reverse)

/-- The component's state hooks: `url`, `htmlContent`, `loading`,
`error`, `lastFetchedUrl`. -/
structure UIState where
  url : String
  htmlContent : String
  loading : Bool
  error : String
  lastFetchedUrl : String
  deriving DecidableEq, Repr

/-- The fixed proxy list of the component (lines 13–17). -/
def corsProxies : List String :=
  ["https://api.allorigins.win/raw?url=",
   "https://cors-anywhere.herokuapp.com/",
   "https://corsproxy.io/?"]

/-- Lines 39–41: entering the fetch proper sets `loading`, clears the
error banner and clears the held HTML content. -/
def clearForFetch (st : UIState) : UIState :=
  { st with loading := true, error := "", htmlContent := "" }

/-- `fetchPageContent` (lines 28–80): reject blank or invalid URLs with
an error message and no request; otherwise clear the view, run the
proxy fallback against `corsProxies`, and settle the state from the
outcome (`finally` resets `loading`). Returns the new state and the
requests issued. -/
def fetchPageContent (net : String → NetResult) (st : UIState) :
    UIState × List Request :=
  if jsTrim st.url == "" then
    ({ st with error := "Please enter a valid URL" }, [])
  else if !isValidUrl st.url then
    ({ st with error := "Please enter a valid HTTP/HTTPS URL" }, [])
  else
    let st1 := clearForFetch st
    let r := fetchViaProxies net st.url corsProxies
    match r.1 with
    | FetchOutcome.success html _ =>
      ({ st1 with htmlContent := html, lastFetchedUrl := st.url,
                  loading := false }, r.2)
    | FetchOutcome.failure reason =>
      ({ st1 with error := reason, loading := false }, r.2)

/-! ## `downloadHtml` (lines 87–99) and the derived export transform -/

/-- The observable browser effects of `downloadHtml`, in order. -/
inductive DownloadEffect where
  | createBlob (bytes : List Nat) (mimeType : String)
  | createObjectURL
  | triggerDownload (filename : String)
  | revokeObjectURL
  deriving DecidableEq, Repr

/-- §6 `exportHtmlFile`: the pure string-to-bytes transform behind the
download action. `now` is the `Date.now()` timestamp. -/
structure ExportArtifact where
  filename : String
  mimeType : String
  bytes : List Nat
  deriving DecidableEq, Repr

/-- Build the export artifact: timestamp-based filename, `text/html`
MIME type, UTF-8 bytes of the HTML string. -/
def exportHtmlFile (now : Nat) (html : String) : ExportArtifact :=
  { filename := "page-" ++ toString now ++ ".html",
    mimeType := "text/html",
    bytes := utf8Bytes html }

/-- `downloadHtml`: no-op on empty content, otherwise build the blob,
mint an object URL, trigger the download, revoke the URL. -/
def downloadHtml (now : Nat) (st : UIState) : List DownloadEffect :=
  if st.htmlContent == "" then []
  else
    [DownloadEffect.createBlob (utf8Bytes st.htmlContent) "text/html",
     DownloadEffect.createObjectURL,
     DownloadEffect.triggerDownload ("page-" ++ toString now ++ ".html"),
     DownloadEffect.revokeObjectURL]

/-! ## Helper functions for stating the loop's result -/

/-- Is a single attempt's result a non-success (fault or non-ok
response)? -/
def isNonSuccess : NetResult → Bool
  | NetResult.fault _ => true
  | NetResult.resp st body => !(Response.ok ⟨st, body⟩)

/-- The value of the `response` variable after a run of the loop that
never breaks: the last completed response, carried over `acc`. -/
def lastResponse (net : String → NetResult) (target : String) :
    List String → Option Response → Option Response
  | [], acc => acc
  | proxy :: rest, acc =>
    match net (requestUrl target proxy) with
    | NetResult.fault _ => lastResponse net target rest acc
    | NetResult.resp st body => lastResponse net target rest (some ⟨st, body⟩)

/-- Is the recorded response absent or non-ok? -/
def respNotOk : Option Response → Bool
  | none => true
  | some r => !r.ok

/-! ## Concrete fixtures used by the witness theorems -/

/-- A transport that answers the first proxy's request with HTTP 200 and
faults on anything else. -/
def netOkFirst : String → NetResult := fun u =>
  if u = requestUrl "http://t" "P1:" then NetResult.resp 200 "<html>A</html>"
  else NetResult.fault "down"

/-- A transport that answers every request with HTTP 503. -/
def netAll503 : String → NetResult := fun _ => NetResult.resp 503 "bad"

/-- A transport on which every request faults. -/
def netAllFault : String → NetResult := fun _ => NetResult.fault "ECONNREFUSED"

/-- A transport that faults on the first proxy's request and answers the
second proxy's request with HTTP 200. -/
def netFaultThenOk : String → NetResult := fun u =>
  if u = requestUrl "http://t" "P2:" then NetResult.resp 200 "<html>B</html>"
  else NetResult.fault "refused"

/-- A component state holding a valid URL, previously fetched HTML and a
previously recorded source URL. -/
def stSample : UIState :=
  { url := "http://t", htmlContent := "<old>", loading := false,
    error := "", lastFetchedUrl := "http://old" }

/-- A component state whose URL is whitespace-only. -/
def stBlankUrl : UIState :=
  { url := "   ", htmlContent := "<old>", loading := false,
    error := "", lastFetchedUrl := "keep" }

/-- A component state holding fetched HTML, ready for download. -/
def stWithHtml : UIState :=
  { url := "", htmlContent := "<p>x</p>", loading := false,
    error := "", lastFetchedUrl := "" }

/-- A component state with no held HTML. -/
def stNoHtml : UIState :=
  { url := "", htmlContent := "", loading := false,
    error := "oops", lastFetchedUrl := "y" }

/-! ## Helper lemmas about the substring test -/

theorem startsWithChars_append (pat l m : List Char)
    (h : startsWithChars pat l = true) :
    startsWithChars pat (l ++ m) = true := by
  induction pat generalizing l with
  | nil => rfl
  | cons p ps ih =>
    cases l with
    | nil => simp [startsWithChars] at h
    | cons c cs =>
      simp only [startsWithChars, Bool.and_eq_true] at h
      simpa [startsWithChars, h.1] using ih cs h.2

theorem startsWithChars_self (pat : List Char) :
    startsWithChars pat pat = true := by
  induction pat with
  | nil => rfl
  | cons c cs ih => simp [startsWithChars, ih]

theorem hasSubstrChars_of_startsWith (pat l : List Char)
    (h : startsWithChars pat l = true) : hasSubstrChars pat l = true := by
  cases l with
  | nil => simpa [hasSubstrChars] using h
  | cons c cs => simp [hasSubstrChars, h]

theorem hasSubstrChars_append_left (pat l m : List Char)
    (h : hasSubstrChars pat l = true) :
    hasSubstrChars pat (l ++ m) = true := by
  induction l with
  | nil =>
    cases pat with
    | nil => exact hasSubstrChars_of_startsWith [] m rfl
    | cons p ps => simp [hasSubstrChars, startsWithChars] at h
  | cons c cs ih =>
    simp only [hasSubstrChars, Bool.or_eq_true] at h
    rcases h with h | h
    · exact hasSubstrChars_of_startsWith _ _ (startsWithChars_append pat (c :: cs) m h)
    · simpa [hasSubstrChars, Bool.or_eq_true] using Or.inr (ih h)

theorem hasSubstrChars_append_right (pat l m : List Char)
    (h : hasSubstrChars pat m = true) :
    hasSubstrChars pat (l ++ m) = true := by
  induction l with
  | nil => simpa using h
  | cons c cs ih =>
    simpa [hasSubstrChars, Bool.or_eq_true] using Or.inr ih

/-! ## Helper lemmas about the fallback loop -/

/-- After a run that never breaks, the loop state's `response` is the
last completed response and the trace lists one request per proxy. -/
theorem runProxyLoop_nonSuccess (net : String → NetResult) (t : String) :
    ∀ (ps : List String) (ls : LoopState),
      (∀ p ∈ ps, isNonSuccess (net (requestUrl t p)) = true) →
      ∃ e, runProxyLoop net t ps ls =
        (⟨lastResponse net t ps ls.response, e⟩, ps.map (mkRequest t)) := by
  intro ps
  induction ps with
  | nil => exact fun ls _ => ⟨ls.lastError, rfl⟩
  | cons p rest ih =>
    intro ls h
    have hp := h p (List.mem_cons_self p rest)
    have hrest : ∀ q ∈ rest, isNonSuccess (net (requestUrl t q)) = true :=
      fun q hq => h q (List.mem_cons_of_mem p hq)
    cases hnet : net (requestUrl t p) with
    | fault m =>
      obtain ⟨e, he⟩ := ih { ls with lastError := some m } hrest
      exact ⟨e, by simp [runProxyLoop, mkRequest, hnet, he, lastResponse]⟩
    | resp st body =>
      have hok : Response.ok ⟨st, body⟩ = false := by
        simpa [isNonSuccess, hnet] using hp
      obtain ⟨e, he⟩ := ih { ls with response := some ⟨st, body⟩ } hrest
      exact ⟨e, by simp [runProxyLoop, mkRequest, hnet, hok, he, lastResponse]⟩

/-- A run over failing proxies followed by an ok proxy breaks exactly
there: the response is the ok one and the trace stops at that proxy. -/
theorem runProxyLoop_break (net : String → NetResult) (t p : String)
    (post : List String) (stc : Nat) (B : String)
    (hp : net (requestUrl t p) = NetResult.resp stc B)
    (hok : Response.ok ⟨stc, B⟩ = true) :
    ∀ (pre : List String) (ls : LoopState),
      (∀ q ∈ pre, isNonSuccess (net (requestUrl t q)) = true) →
      ∃ e, runProxyLoop net t (pre ++ p :: post) ls =
        (⟨some ⟨stc, B⟩, e⟩, pre.map (mkRequest t) ++ [mkRequest t p]) := by
  intro pre
  induction pre with
  | nil =>
    intro ls _
    exact ⟨ls.lastError, by simp [runProxyLoop, mkRequest, hp, hok]⟩
  | cons q pre' ih =>
    intro ls h
    have hq := h q (List.mem_cons_self q pre')
    have hpre' : ∀ x ∈ pre', isNonSuccess (net (requestUrl t x)) = true :=
      fun x hx => h x (List.mem_cons_of_mem q hx)
    cases hnet : net (requestUrl t q) with
    | fault m =>
      obtain ⟨e, he⟩ := ih { ls with lastError := some m } hpre'
      exact ⟨e, by simp [runProxyLoop, mkRequest, hnet, he]⟩
    | resp st body =>
      have hnok : Response.ok ⟨st, body⟩ = false := by
        simpa [isNonSuccess, hnet] using hq
      obtain ⟨e, he⟩ := ih { ls with response := some ⟨st, body⟩ } hpre'
      exact ⟨e, by simp [runProxyLoop, mkRequest, hnet, hnok, he]⟩

theorem lastResponse_notOk (net : String → NetResult) (t : String) :
    ∀ (ps : List String),
      (∀ p ∈ ps, isNonSuccess (net (requestUrl t p)) = true) →
      ∀ acc, respNotOk acc = true →
        respNotOk (lastResponse net t ps acc) = true := by
  intro ps
  induction ps with
  | nil => exact fun _ acc hacc => hacc
  | cons p rest ih =>
    intro h acc hacc
    have hp := h p (List.mem_cons_self p rest)
    have hrest : ∀ q ∈ rest, isNonSuccess (net (requestUrl t q)) = true :=
      fun q hq => h q (List.mem_cons_of_mem p hq)
    cases hnet : net (requestUrl t p) with
    | fault m => simpa [lastResponse, hnet] using ih hrest acc hacc
    | resp st body =>
      have hnok : Response.ok ⟨st, body⟩ = false := by
        simpa [isNonSuccess, hnet] using hp
      simpa [lastResponse, hnet] using
        ih hrest (some ⟨st, body⟩) (by simp [respNotOk, hnok])

/-- Exhaustion: when every proxy's attempt is a non-success, the
procedure fails with the banner composed around the last completed
response's status (or `Network error`). -/
theorem fetchViaProxies_exhausted (net : String → NetResult) (t : String)
    (proxies : List String)
    (hall : ∀ p ∈ proxies, isNonSuccess (net (requestUrl t p)) = true) :
    (fetchViaProxies net t proxies).1 =
      FetchOutcome.failure
        (fetchErrorBanner (failedFetchMsg (lastResponse net t proxies none))) := by
  obtain ⟨e, he⟩ := runProxyLoop_nonSuccess net t proxies ⟨none, none⟩ hall
  have hnotok := lastResponse_notOk net t proxies hall none rfl
  simp only [fetchViaProxies, he]
  cases hL : lastResponse net t proxies none with
  | none => simp
  | some resp =>
    have : Response.ok resp = false := by
      simpa [respNotOk, hL] using hnotok
    simp [this]

/-- One unfolding step of `lastResponse`. -/
theorem lastResponse_cons (net : String → NetResult) (t p : String)
    (rest : List String) (acc : Option Response) :
    lastResponse net t (p :: rest) acc =
      match net (requestUrl t p) with
      | NetResult.fault _ => lastResponse net t rest acc
      | NetResult.resp st body => lastResponse net t rest (some ⟨st, body⟩) :=
  rfl

/-- All-503 runs leave a 503 as the last completed response. -/
theorem lastResponse_503 (net : String → NetResult) (t : String) :
    ∀ (ps : List String),
      (∀ p ∈ ps, ∃ b, net (requestUrl t p) = NetResult.resp 503 b) →
      ps ≠ [] → ∀ acc, ∃ b, lastResponse net t ps acc = some ⟨503, b⟩ := by
  intro ps
  induction ps with
  | nil => exact fun _ hne => absurd rfl hne
  | cons p rest ih =>
    intro h _ acc
    obtain ⟨b, hb⟩ := h p (List.mem_cons_self p rest)
    cases rest with
    | nil =>
      refine ⟨b, ?_⟩
      rw [lastResponse_cons, hb]
      rfl
    | cons q rest' =>
      have hrest : ∀ x ∈ q :: rest', ∃ c, net (requestUrl t x) = NetResult.resp 503 c :=
        fun x hx => h x (List.mem_cons_of_mem p hx)
      obtain ⟨c, hc⟩ := ih hrest (by simp) (some ⟨503, b⟩)
      refine ⟨c, ?_⟩
      rw [lastResponse_cons, hb]
      simpa using hc

/-- Every request of the trace is the GET request of one of the given
proxies. -/
theorem runProxyLoop_trace_mem (net : String → NetResult) (t : String) :
    ∀ (ps : List String) (ls : LoopState) (req : Request),
      req ∈ (runProxyLoop net t ps ls).2 →
      ∃ p ∈ ps, req = mkRequest t p := by
  intro ps
  induction ps with
  | nil => intro ls req h; simp [runProxyLoop] at h
  | cons p rest ih =>
    intro ls req h
    cases hnet : net (requestUrl t p) with
    | fault m =>
      simp only [runProxyLoop, mkRequest, hnet, List.mem_cons] at h
      rcases h with h | h
      · exact ⟨p, List.mem_cons_self p rest, by simp [mkRequest, h]⟩
      · obtain ⟨q, hq, hreq⟩ := ih _ req h
        exact ⟨q, List.mem_cons_of_mem p hq, hreq⟩
    | resp st body =>
      by_cases hok : Response.ok ⟨st, body⟩
      · simp only [runProxyLoop, mkRequest, hnet, hok, if_pos, List.mem_singleton] at h
        exact ⟨p, List.mem_cons_self p rest, by simp [mkRequest, h]⟩
      · simp only [runProxyLoop, mkRequest, hnet, hok, if_neg, List.mem_cons,
          Bool.not_eq_true] at h
        rcases h with h | h
        · exact ⟨p, List.mem_cons_self p rest, by simp [mkRequest, h]⟩
        · obtain ⟨q, hq, hreq⟩ := ih _ req h
          exact ⟨q, List.mem_cons_of_mem p hq, hreq⟩

/-- The trace of `fetchViaProxies` is the trace of its loop. -/
theorem fetchViaProxies_trace (net : String → NetResult) (t : String)
    (ps : List String) :
    (fetchViaProxies net t ps).2 = (runProxyLoop net t ps ⟨none, none⟩).2 := by
  simp only [fetchViaProxies]
  cases hr : (runProxyLoop net t ps ⟨none, none⟩).1.response with
  | none => simp
  | some resp => by_cases hok : Response.ok resp <;> simp [hok]

/-! ## The claims -/

/-- C1: for every target URL and ordered proxy list, when some proxy is
the first in order whose attempt completes with an ok response carrying
body `B`, `fetchViaProxies` stops there: it returns
`Success { html := B, sourceUrl := targetUrl }` (the source URL is the
target, not the proxy request URL) and the request trace contains only
the earlier proxies' requests and that proxy's request — no subsequent
proxy is attempted. -/
theorem fetchViaProxies_first_success (net : String → NetResult)
    (targetUrl : String) (pre post : List String) (p : String)
    (stc : Nat) (B : String)
    (hpre : ∀ q ∈ pre, isNonSuccess (net (requestUrl targetUrl q)) = true)
    (hp : net (requestUrl targetUrl p) = NetResult.resp stc B)
    (hok : Response.ok ⟨stc, B⟩ = true) :
    fetchViaProxies net targetUrl (pre ++ p :: post) =
      (FetchOutcome.success B targetUrl,
       pre.map (mkRequest targetUrl) ++ [mkRequest targetUrl p]) := by
  obtain ⟨e, he⟩ :=
    runProxyLoop_break net targetUrl p post stc B hp hok pre ⟨none, none⟩ hpre
  simp [fetchViaProxies, he, hok]

/-- C1 witness: a failing proxy, then the proxy answering 200 with
`<html>A</html>`, then an unattempted proxy. -/
theorem fetchViaProxies_first_success_witness :
    fetchViaProxies netOkFirst "http://t" (["P0:"] ++ "P1:" :: ["P2:"]) =
      (FetchOutcome.success "<html>A</html>" "http://t",
       (["P0:"].map (mkRequest "http://t")) ++ [mkRequest "http://t" "P1:"]) :=
  fetchViaProxies_first_success netOkFirst "http://t" ["P0:"] ["P2:"] "P1:"
    200 "<html>A</html>" (by decide) (by decide) (by decide)

/-- C2 counterexample: with a single proxy whose attempt faults with
transport error string `ECONNREFUSED` (so that fault is the last
observed failure), the returned reason contains the fixed text
`Network error` and does not include the observed transport error
string — refuting the claim that the reason includes whatever status
code or transport error string was last observed. -/
theorem fetchViaProxies_exhausted_reason_counterexample :
    (fetchViaProxies netAllFault "http://t" ["P1:"]).1 =
      FetchOutcome.failure (fetchErrorBanner "Failed to fetch: Network error") ∧
    netAllFault (requestUrl "http://t" "P1:") =
      NetResult.fault "ECONNREFUSED" ∧
    containsStr (fetchErrorBanner "Failed to fetch: Network error")
      "ECONNREFUSED" = false := by
  decide

/-- C2 (amended): when every proxy is exhausted without a success, the
result is a `Failure` whose reason explains the page was unreachable,
mentions cross-origin restrictions and upstream unavailability, and
includes the status code of the last completed (non-ok) response — or
the fixed text `Network error` when no attempt completed a response;
the transport error strings of faulting attempts are recorded in
`lastError` but never included. -/
theorem fetchViaProxies_exhausted_reason (net : String → NetResult)
    (t : String) (proxies : List String)
    (hall : ∀ p ∈ proxies, isNonSuccess (net (requestUrl t p)) = true) :
    (fetchViaProxies net t proxies).1 =
      FetchOutcome.failure
        (fetchErrorBanner (failedFetchMsg (lastResponse net t proxies none))) ∧
    containsStr
      (fetchErrorBanner (failedFetchMsg (lastResponse net t proxies none)))
      "CORS restrictions" = true ∧
    containsStr
      (fetchErrorBanner (failedFetchMsg (lastResponse net t proxies none)))
      "unavailable" = true ∧
    containsStr
      (fetchErrorBanner (failedFetchMsg (lastResponse net t proxies none)))
      (statusOrNetworkError (lastResponse net t proxies none)) = true := by
  refine ⟨fetchViaProxies_exhausted net t proxies hall, ?_, ?_, ?_⟩
  · show hasSubstrChars ("CORS restrictions").data
      (bannerPrefixText ++ failedFetchMsg (lastResponse net t proxies none)).data = true
    rw [String.data_append]
    exact hasSubstrChars_append_left _ _ _ (by decide)
  · show hasSubstrChars ("unavailable").data
      (bannerPrefixText ++ failedFetchMsg (lastResponse net t proxies none)).data = true
    rw [String.data_append]
    exact hasSubstrChars_append_left _ _ _ (by decide)
  · show hasSubstrChars (statusOrNetworkError (lastResponse net t proxies none)).data
      (bannerPrefixText ++
        ("Failed to fetch: " ++ statusOrNetworkError (lastResponse net t proxies none))).data = true
    rw [String.data_append, String.data_append]
    exact hasSubstrChars_append_right _ _ _
      (hasSubstrChars_append_right _ _ _
        (hasSubstrChars_of_startsWith _ _ (startsWithChars_self _)))

/-- C2 (amended) witness: two proxies both answering 503. -/
theorem fetchViaProxies_exhausted_reason_witness :
    (fetchViaProxies netAll503 "http://t" ["P1:", "P2:"]).1 =
      FetchOutcome.failure
        (fetchErrorBanner
          (failedFetchMsg (lastResponse netAll503 "http://t" ["P1:", "P2:"] none))) ∧
    containsStr
      (fetchErrorBanner
        (failedFetchMsg (lastResponse netAll503 "http://t" ["P1:", "P2:"] none)))
      "CORS restrictions" = true ∧
    containsStr
      (fetchErrorBanner
        (failedFetchMsg (lastResponse netAll503 "http://t" ["P1:", "P2:"] none)))
      "unavailable" = true ∧
    containsStr
      (fetchErrorBanner
        (failedFetchMsg (lastResponse netAll503 "http://t" ["P1:", "P2:"] none)))
      (statusOrNetworkError (lastResponse netAll503 "http://t" ["P1:", "P2:"] none)) =
      true :=
  fetchViaProxies_exhausted_reason netAll503 "http://t" ["P1:", "P2:"]
    (by decide)

/-- C3: `isValidUrl` returns `true` exactly when the input parses as an
absolute URL whose normalized (lowercase) scheme is `http` or `https`;
parse failure yields `false` as a plain value; in particular it rejects
the empty string, scheme-less text, `ftp` and `file` URLs, and accepts
the two sample URLs. -/
theorem isValidUrl_spec (s : String) :
    (isValidUrl s = true ↔
      ∃ u, parseURL s = some u ∧
        (u.protocol = "http:" ∨ u.protocol = "https:")) ∧
    isValidUrl "https://example.com" = true ∧
    isValidUrl "http://example.com/path?q=1" = true ∧
    isValidUrl "" = false ∧
    isValidUrl "not a url" = false ∧
    isValidUrl "ftp://example.com" = false ∧
    isValidUrl "file:///tmp/x.html" = false := by
  refine ⟨?_, by decide, by decide, by decide, by decide, by decide, by decide⟩
  unfold isValidUrl
  cases h : parseURL s with
  | none => simp
  | some u => simp

/-- C4: transport faults and non-success responses are absorbed inside
the loop; only `Success` or a final `Failure` leaves the component as a
returned value. In particular a fault on the first proxy followed by an
HTTP 200 with body `B` on the second yields
`Success { html := B, sourceUrl := targetUrl }`, and every invocation
settles to either a `success` or a `failure` value. -/
theorem fetchViaProxies_fault_recovered (net : String → NetResult)
    (targetUrl p1 p2 : String) (rest : List String) (e B : String)
    (h1 : net (requestUrl targetUrl p1) = NetResult.fault e)
    (h2 : net (requestUrl targetUrl p2) = NetResult.resp 200 B) :
    fetchViaProxies net targetUrl (p1 :: p2 :: rest) =
      (FetchOutcome.success B targetUrl,
       [mkRequest targetUrl p1, mkRequest targetUrl p2]) ∧
    ∀ (net2 : String → NetResult) (t2 : String) (ps : List String),
      (∃ h s, (fetchViaProxies net2 t2 ps).1 = FetchOutcome.success h s) ∨
      (∃ m, (fetchViaProxies net2 t2 ps).1 = FetchOutcome.failure m) := by
  constructor
  · have hpre : ∀ q ∈ [p1], isNonSuccess (net (requestUrl targetUrl q)) = true := by
      intro q hq
      rw [List.mem_singleton] at hq
      subst hq
      simp [isNonSuccess, h1]
    obtain ⟨e', he⟩ :=
      runProxyLoop_break net targetUrl p2 rest 200 B h2 rfl [p1]
        ⟨none, none⟩ hpre
    simp only [List.singleton_append, List.map_cons, List.map_nil] at he
    simp [fetchViaProxies, he, Response.ok]
  · intro net2 t2 ps
    cases hfv : (fetchViaProxies net2 t2 ps).1 with
    | success a b => exact Or.inl ⟨a, b, rfl⟩
    | failure m => exact Or.inr ⟨m, rfl⟩

/-- C4 witness: the first proxy faults, the second answers 200 with
`<html>B</html>`. -/
theorem fetchViaProxies_fault_recovered_witness :
    fetchViaProxies netFaultThenOk "http://t" ("P1:" :: "P2:" :: []) =
      (FetchOutcome.success "<html>B</html>" "http://t",
       [mkRequest "http://t" "P1:", mkRequest "http://t" "P2:"]) ∧
    ∀ (net2 : String → NetResult) (t2 : String) (ps : List String),
      (∃ h s, (fetchViaProxies net2 t2 ps).1 = FetchOutcome.success h s) ∨
      (∃ m, (fetchViaProxies net2 t2 ps).1 = FetchOutcome.failure m) :=
  fetchViaProxies_fault_recovered netFaultThenOk "http://t" "P1:" "P2:" []
    "refused" "<html>B</html>" (by decide) (by decide)

/-- C5: when every proxy answers HTTP 503, the result is a `Failure`
whose reason references the last observed status code 503. -/
theorem fetchViaProxies_all_503 (net : String → NetResult) (t : String)
    (proxies : List String) (hne : proxies ≠ [])
    (hall : ∀ p ∈ proxies, ∃ b, net (requestUrl t p) = NetResult.resp 503 b) :
    (fetchViaProxies net t proxies).1 =
      FetchOutcome.failure (fetchErrorBanner "Failed to fetch: 503") ∧
    containsStr (fetchErrorBanner "Failed to fetch: 503") "503" = true := by
  refine ⟨?_, by decide⟩
  have hall' : ∀ p ∈ proxies, isNonSuccess (net (requestUrl t p)) = true := by
    intro p hp
    obtain ⟨b, hb⟩ := hall p hp
    simp [isNonSuccess, hb, Response.ok]
  obtain ⟨b, hL⟩ := lastResponse_503 net t proxies hall hne none
  rw [fetchViaProxies_exhausted net t proxies hall', hL]
  simp only [failedFetchMsg, statusOrNetworkError]
  rfl

/-- C5 witness: two proxies both answering 503. -/
theorem fetchViaProxies_all_503_witness :
    (fetchViaProxies netAll503 "http://t" ["P1:", "P2:"]).1 =
      FetchOutcome.failure (fetchErrorBanner "Failed to fetch: 503") ∧
    containsStr (fetchErrorBanner "Failed to fetch: 503") "503" = true :=
  fetchViaProxies_all_503 netAll503 "http://t" ["P1:", "P2:"] (by decide)
    (fun _ _ => ⟨"bad", rfl⟩)

/-- C6: an input failing §4.1 validation (the empty and whitespace-only
strings among them) surfaces an invalid-input error message immediately
and issues no proxy request; the held HTML content and the recorded
source URL are untouched. -/
theorem fetchPageContent_invalid_input (net : String → NetResult)
    (st : UIState) (hinv : isValidUrl st.url = false) :
    (fetchPageContent net st).2 = [] ∧
    ((fetchPageContent net st).1.error = "Please enter a valid URL" ∨
     (fetchPageContent net st).1.error = "Please enter a valid HTTP/HTTPS URL") ∧
    (fetchPageContent net st).1.htmlContent = st.htmlContent ∧
    (fetchPageContent net st).1.lastFetchedUrl = st.lastFetchedUrl := by
  by_cases htrim : jsTrim st.url = ""
  · simp [fetchPageContent, htrim]
  · simp [fetchPageContent, htrim, hinv]

/-- C6 witness: a whitespace-only URL. -/
theorem fetchPageContent_invalid_input_witness :
    (fetchPageContent netAll503 stBlankUrl).2 = [] ∧
    ((fetchPageContent netAll503 stBlankUrl).1.error = "Please enter a valid URL" ∨
     (fetchPageContent netAll503 stBlankUrl).1.error =
       "Please enter a valid HTTP/HTTPS URL") ∧
    (fetchPageContent netAll503 stBlankUrl).1.htmlContent =
      stBlankUrl.htmlContent ∧
    (fetchPageContent netAll503 stBlankUrl).1.lastFetchedUrl =
      stBlankUrl.lastFetchedUrl :=
  fetchPageContent_invalid_input netAll503 stBlankUrl (by decide)

/-- C7: every request the procedure issues is an HTTP GET against
`proxy ++ encodeURIComponent targetUrl` for one of the given proxies,
carries the fixed identifying user-agent string, and carries no
authentication. -/
theorem fetchViaProxies_request_shape (net : String → NetResult)
    (targetUrl : String) (proxies : List String) (req : Request)
    (hmem : req ∈ (fetchViaProxies net targetUrl proxies).2) :
    ∃ p ∈ proxies, req.method = "GET" ∧
      req.url = p ++ encodeURIComponent targetUrl ∧
      req.userAgent = pageReaderUserAgent ∧
      req.auth = none := by
  rw [fetchViaProxies_trace] at hmem
  obtain ⟨p, hp, hreq⟩ :=
    runProxyLoop_trace_mem net targetUrl proxies ⟨none, none⟩ req hmem
  exact ⟨p, hp, by simp [hreq, mkRequest, requestUrl]⟩

/-- C7 witness: the request issued to a concrete single proxy. -/
theorem fetchViaProxies_request_shape_witness :
    ∃ p ∈ ["P1:"], (mkRequest "http://t" "P1:").method = "GET" ∧
      (mkRequest "http://t" "P1:").url = p ++ encodeURIComponent "http://t" ∧
      (mkRequest "http://t" "P1:").userAgent = pageReaderUserAgent ∧
      (mkRequest "http://t" "P1:").auth = none :=
  fetchViaProxies_request_shape netAll503 "http://t" ["P1:"]
    (mkRequest "http://t" "P1:") (by decide)

/-- C8: for any HTML string and timestamp, the export transform yields
the timestamp-based filename, the `text/html` MIME type, and exactly
the UTF-8 bytes of the HTML; it is the pure transform behind
`downloadHtml` on nonempty content, and on `"<p>x</p>"` the bytes are
the UTF-8 encoding of that string. -/
theorem exportHtmlFile_spec (now : Nat) (html : String) (st : UIState)
    (hst : st.htmlContent = html) (hne : html ≠ "") :
    (exportHtmlFile now html).mimeType = "text/html" ∧
    (exportHtmlFile now html).bytes = utf8Bytes html ∧
    (exportHtmlFile now html).filename = "page-" ++ toString now ++ ".html" ∧
    downloadHtml now st =
      [DownloadEffect.createBlob (exportHtmlFile now html).bytes
         (exportHtmlFile now html).mimeType,
       DownloadEffect.createObjectURL,
       DownloadEffect.triggerDownload (exportHtmlFile now html).filename,
       DownloadEffect.revokeObjectURL] ∧
    utf8Bytes "<p>x</p>" = [60, 112, 62, 120, 60, 47, 112, 62] := by
  refine ⟨rfl, rfl, rfl, ?_, by decide⟩
  subst hst
  simp [downloadHtml, exportHtmlFile, hne]

/-- C8 witness: exporting `<p>x</p>` at timestamp 5. -/
theorem exportHtmlFile_spec_witness :
    (exportHtmlFile 5 "<p>x</p>").mimeType = "text/html" ∧
    (exportHtmlFile 5 "<p>x</p>").bytes = utf8Bytes "<p>x</p>" ∧
    (exportHtmlFile 5 "<p>x</p>").filename = "page-" ++ toString 5 ++ ".html" ∧
    downloadHtml 5 stWithHtml =
      [DownloadEffect.createBlob (exportHtmlFile 5 "<p>x</p>").bytes
         (exportHtmlFile 5 "<p>x</p>").mimeType,
       DownloadEffect.createObjectURL,
       DownloadEffect.triggerDownload (exportHtmlFile 5 "<p>x</p>").filename,
       DownloadEffect.revokeObjectURL] ∧
    utf8Bytes "<p>x</p>" = [60, 112, 62, 120, 60, 47, 112, 62] :=
  exportHtmlFile_spec 5 "<p>x</p>" stWithHtml (by decide) (by decide)

/-- C9: with empty held HTML content the download action is a no-op: it
performs none of its effects (no blob, no object URL, no download
trigger). -/
theorem downloadHtml_noop (now : Nat) (st : UIState)
    (h : st.htmlContent = "") :
    downloadHtml now st = [] := by
  simp [downloadHtml, h]

/-- C9 witness: a state with no held HTML. -/
theorem downloadHtml_noop_witness : downloadHtml 7 stNoHtml = [] :=
  downloadHtml_noop 7 stNoHtml (by decide)

/-- C10: a validated fetch first clears the held HTML and the error
banner (`clearForFetch`), so an invocation that settles in `Failure`
leaves the HTML content empty — the previously displayed content is
lost — while `lastFetchedUrl` keeps its value from the last successful
fetch; the state is not restored on error. -/
theorem fetchPageContent_failure_state (net : String → NetResult)
    (st : UIState) (r : String)
    (htrim : ¬(jsTrim st.url = ""))
    (hvalid : isValidUrl st.url = true)
    (hfail : (fetchViaProxies net st.url corsProxies).1 = FetchOutcome.failure r) :
    (fetchPageContent net st).1.htmlContent = "" ∧
    (fetchPageContent net st).1.error = r ∧
    (fetchPageContent net st).1.lastFetchedUrl = st.lastFetchedUrl ∧
    (clearForFetch st).htmlContent = "" ∧
    (clearForFetch st).error = "" := by
  simp [fetchPageContent, htrim, hvalid, hfail, clearForFetch]

/-- C10 witness: a state with previously fetched HTML whose new fetch
fails on every proxy with 503. -/
theorem fetchPageContent_failure_state_witness :
    (fetchPageContent netAll503 stSample).1.htmlContent = "" ∧
    (fetchPageContent netAll503 stSample).1.error =
      fetchErrorBanner "Failed to fetch: 503" ∧
    (fetchPageContent netAll503 stSample).1.lastFetchedUrl =
      stSample.lastFetchedUrl ∧
    (clearForFetch stSample).htmlContent = "" ∧
    (clearForFetch stSample).error = "" :=
  fetchPageContent_failure_state netAll503 stSample
    (fetchErrorBanner "Failed to fetch: 503") (by decide) (by decide)
    (by decide)

end HTMLGrab
